import Mathlib

/-
Verification of the robot-config-service orchestration engine
(src/robot_config_service.py) against its natural-language specification.

The Python source is shallowly embedded: each effectful callee (file reads,
HTTP requests, subprocess invocations) is represented by an oracle value in an
explicit `World`, and each function becomes a pure Lean function over those
oracles.  Unbounded loops (the indefinite token poll) take an explicit fuel
parameter; a `none` result means "the loop has not yet returned within the
given fuel", never an error return.
-/

set_option maxRecDepth 8192

namespace RobotConfigService

/-! ## Python string primitives

`String.trim` / `String.toLower` from the Lean library are defined by
well-founded recursion over byte positions and do not reduce in the kernel,
so Python's `str.strip()` / `str.lower()` are embedded directly as
executable list functions. -/

/-- The characters Python's `str.strip()` removes. -/
def pyWhitespace (c : Char) : Bool :=
  c = ' ' || c = '\t' || c = '\n' || c = '\r' || c = '\x0b' || c = '\x0c'

/-- Embedding of Python's `str.strip()`: drop leading and trailing
whitespace. -/
def pyStrip (s : String) : String :=
  ⟨((s.data.dropWhile pyWhitespace).reverse.dropWhile pyWhitespace).reverse⟩

/-- ASCII lowercase of one character (Python `str.lower()` on the ASCII
letters that the skupper-status markers consist of). -/
def pyLowerChar (c : Char) : Char :=
  if 'A' ≤ c && c ≤ 'Z' then Char.ofNat (c.toNat + 32) else c

/-- Embedding of Python's `str.lower()`. -/
def pyLower (s : String) : String :=
  ⟨s.data.map pyLowerChar⟩

/-- Boolean substring test on character lists: `needle` occurs somewhere in
the haystack.  Models Python's `needle in haystack`. -/
def charsContains (needle : List Char) : List Char → Bool
  | [] => needle.isEmpty
  | c :: t => needle.isPrefixOf (c :: t) || charsContains needle t

/-- Substring test on strings: `strContains hay needle` models Python's
`needle in hay`. -/
def strContains (hay needle : String) : Bool :=
  charsContains needle.toList hay.toList

/-! ## StateStore: get_cached_event_id / cache_event_id -/

/-- Embedding of `get_cached_event_id` (source lines 88-99).
The argument is the cache file's content (`none` = file does not exist);
`readOk = false` models the `except Exception` path (an I/O error while
reading), which yields `None` in the source.  A file whose content strips to
the empty string is also reported as `None`. -/
def get_cached_event_id (readOk : Bool) : Option String → Option String
  | none => none
  | some c =>
    if readOk then
      if pyStrip c = "" then none else some (pyStrip c)
    else none

/-- Embedding of `cache_event_id` (source lines 101-115).  `writeOk = false`
models `PermissionError` / `Exception` during mkdir or write (the source
returns `False` and leaves the file as it was); on success the file now holds
exactly `event_id` and the function returns `True`. -/
def cache_event_id (writeOk : Bool) (file : Option String) (event_id : String) :
    Bool × Option String :=
  if writeOk then (true, some event_id) else (false, file)

/-! ## TunnelProbe: check_skupper_tunnel -/

/-- Outcome of the `subprocess.run(['skupper', 'status', ...])` call in
`check_skupper_tunnel` (source lines 308-343): either the process completed
with a return code and captured stdout, or one of the exception paths fired
(`FileNotFoundError`, `subprocess.TimeoutExpired`, generic `Exception`). -/
inductive SkupperOutcome where
  | completed (returncode : Int) (stdout : String)
  | skupperMissing
  | timedOut
  | otherError
deriving DecidableEq

/-- Embedding of `check_skupper_tunnel` (source lines 308-343): stdout is
lowercased; a non-zero exit is "down"; otherwise "up" requires both the
marker `connected to` and the marker `other site` in the lowercased stdout;
every exception path is "down". -/
def check_skupper_tunnel : SkupperOutcome → Bool
  | .completed rc out =>
    if rc ≠ 0 then false
    else strContains (pyLower out) "connected to" && strContains (pyLower out) "other site"
  | .skupperMissing => false
  | .timedOut => false
  | .otherError => false

/-! ## ControlPlaneClient: token query -/

/-- Body of an HTTP 200 response as the source parses it: either
`response.json()` succeeded and produced a dict (carrying the optional
`token` and `skupper_token` fields and the rendering `str(data)` used as the
final fallback), or JSON parsing raised `ValueError` and the source falls
back to `response.text.strip()`. -/
inductive Body where
  | jsonDict (token : Option String) (skupperToken : Option String) (strData : String)
  | text (s : String)
deriving DecidableEq

/-- Python's `a or b` on strings, where `None` is modelled as `""` (both are
falsy and neither can win an `or`). -/
def pyOr (a b : String) : String := if a = "" then b else a

/-- Token extraction from a 200 response in `query_skupper_token`
(source lines 292-297): `data.get('token') or data.get('skupper_token') or
str(data)` on the JSON path, `response.text.strip()` on the text path. -/
def parseTokenBody : Body → String
  | .jsonDict tok skup strData => pyOr (tok.getD "") (pyOr (skup.getD "") strData)
  | .text s => pyStrip s

/-- One attempt of the `getToken` GET in `query_skupper_token`: a network
error (`requests.exceptions.RequestException`, caught and retried) or a
response with a status code and body. -/
inductive TokenResp where
  | err
  | resp (status : Nat) (body : Body)
deriving DecidableEq

/-- Whether an attempt outcome is an HTTP 200 response. -/
def is200 : TokenResp → Bool
  | .resp s _ => s = 200
  | .err => false

/-- Embedding of the `while True` retry loop of `query_skupper_token`
(source lines 282-306).  `resps i` is the outcome of the `i`-th attempt;
`fuel` bounds how many loop iterations we unfold; `none` means the loop is
still retrying after `fuel` attempts (the source would sleep 5s and go
around again).  The loop returns (the parsed token) exactly on the first
HTTP 200 response; every other outcome is logged and retried. -/
def query_skupper_token (resps : Nat → TokenResp) : Nat → Nat → Option String
  | 0, _ => none
  | fuel + 1, i =>
    match resps i with
    | .resp s b =>
      if s = 200 then some (parseTokenBody b)
      else query_skupper_token resps fuel (i + 1)
    | .err => query_skupper_token resps fuel (i + 1)

/-! ## EndpointResolver: redirect chase of get_cluster_url -/

/-- Response of one authenticated, non-auto-following GET during the
redirect chase of `get_cluster_url` (source lines 181-221):
`netErr` covers `requests.exceptions.RequestException` and the
`raise_for_status()` raise (both abort the current chase attempt and fall to
the per-attempt retry loop); `redirect next` is a redirect-status response
whose Location header resolves to `next` (the source resolves a relative
Location against the host just requested — that pure string computation is
absorbed into the oracle, which maps each requested URL to the already
resolved next URL); `final` is a non-redirect response, whose URL is the
requested one since redirects are not auto-followed. -/
inductive RedirResp where
  | netErr
  | redirect (next : String)
  | final
deriving DecidableEq

/-- How one chase attempt ends: a resolved URL, an Absent return
(redirect loop detected or the 10-hop cap reached — the source does
`return None` from the whole function), or a network failure handed to the
per-attempt retry loop. -/
inductive ChaseStep where
  | resolved (u : String)
  | absentStop
  | netFail
deriving DecidableEq

/-- Python's `str.rstrip('/')` used on the final URL. -/
def rstripSlash (s : String) : String :=
  ⟨(s.data.reverse.dropWhile (fun c => c = '/')).reverse⟩

/-- Embedding of the `for _ in range(10)` hop loop of `get_cluster_url`
(source lines 185-213).  `seen` is the visited-URL set, `fuel` the remaining
hops out of 10.  Returns how the attempt ended together with the list of
URLs actually requested. -/
def follow_redirects (resp : String → RedirResp) :
    Nat → List String → String → ChaseStep × List String
  | 0, _, _ => (.absentStop, [])
  | fuel + 1, seen, url =>
    if url ∈ seen then (.absentStop, [])
    else
      match resp url with
      | .netErr => (.netFail, [url])
      | .redirect next =>
        let r := follow_redirects resp fuel (url :: seen) next
        (r.1, url :: r.2)
      | .final => (.resolved (rstripSlash url), [url])

/-- Embedding of the per-attempt retry loop wrapping the redirect chase
(source lines 182-221): each attempt restarts the chase from the configured
redirect URL with a fresh visited set; a resolved URL or an Absent stop
(loop detected / too many redirects) returns immediately, only a network
failure is retried; after `retries` attempts the function returns Absent. -/
def get_cluster_url_redirect (resp : String → RedirResp) (redirectUrl : String) :
    Nat → Option String
  | 0 => none
  | retries + 1 =>
    match (follow_redirects resp 10 [] redirectUrl).1 with
    | .resolved u => some u
    | .absentStop => none
    | .netFail => get_cluster_url_redirect resp redirectUrl retries

/-- Whether a response is a redirect. -/
def isRedirect : RedirResp → Bool
  | .redirect _ => true
  | _ => false

/-! ## Provisioner: run_ansible_playbook -/

/-- Outcome of one `_run_ansible_playbook_once` attempt (source lines
360-418): the playbook process exited 0 (`success`), exited non-zero
(`nonZeroExit`), or `subprocess.run` raised (`timeout` for
`subprocess.TimeoutExpired`, `binaryMissing` for `FileNotFoundError`).
Each attempt first writes the token to the secret file. -/
inductive AttemptOutcome where
  | success
  | nonZeroExit
  | timeout
  | binaryMissing
deriving DecidableEq

/-- How `run_ansible_playbook` (source lines 420-441) ends: `ok b` is a
normal `return b`; `raised` models the fact that each `except` handler's
first statement references the undefined name `cluster_url`, so the handler
itself raises `NameError`, which propagates out of the method (the intended
`return False` is never reached). -/
inductive PlayResult where
  | ok (b : Bool)
  | raised
deriving DecidableEq

/-- The `for attempt in range(1, PLAYBOOK_RETRIES + 1)` loop of
`run_ansible_playbook`.  `i` is the index of the next attempt (0-based into
`attempts`), `rem` the remaining attempt budget.  A success returns `True`
immediately; a non-zero exit goes to the next attempt; an exception
(timeout / missing binary) escapes the loop into the broken handlers, hence
`raised`.  The second component counts the attempts actually started. -/
def playbook_attempt_loop (attempts : Nat → AttemptOutcome) :
    Nat → Nat → PlayResult × Nat
  | 0, i => (.ok false, i)
  | rem + 1, i =>
    match attempts i with
    | .success => (.ok true, i + 1)
    | .nonZeroExit => playbook_attempt_loop attempts rem (i + 1)
    | .timeout => (.raised, i + 1)
    | .binaryMissing => (.raised, i + 1)

/-- Embedding of `run_ansible_playbook` (source lines 420-441).  The
`max 1` mirrors `PLAYBOOK_RETRIES = max(1, int(os.getenv(...)))` at
configuration load (source line 51), so at least one attempt always runs. -/
def run_ansible_playbook (attempts : Nat → AttemptOutcome) (retries : Nat) :
    PlayResult × Nat :=
  playbook_attempt_loop attempts (max 1 retries) 0

/-! ## Theorems for the leaf components -/

/-- C6: `check_skupper_tunnel` returns "up" exactly when the external status
command exits zero and its (lowercased) output contains both the
connection-established marker and the other-site marker; a single marker,
a missing binary, a non-zero exit, or a timeout each yield "down". -/
theorem C6_tunnel_up_iff_both_markers (rc : Int) (out : String) :
    (check_skupper_tunnel (.completed rc out) = true ↔
      rc = 0 ∧ strContains (pyLower out) "connected to" = true ∧
        strContains (pyLower out) "other site" = true)
    ∧ check_skupper_tunnel .skupperMissing = false
    ∧ check_skupper_tunnel .timedOut = false
    ∧ check_skupper_tunnel .otherError = false := by
  refine ⟨?_, rfl, rfl, rfl⟩
  unfold check_skupper_tunnel
  by_cases h : rc = 0
  · simp [h, Bool.and_eq_true]
  · simp [h]

/-- Witness for C6 at concrete inputs: an output with both markers is "up". -/
theorem C6_tunnel_up_iff_both_markers_witness :
    check_skupper_tunnel (.completed 0 "Connected to 1 other site") = true :=
  (C6_tunnel_up_iff_both_markers 0 "Connected to 1 other site").1.mpr
    ⟨rfl, by decide, by decide⟩

/-- C9: for a non-empty event id `s` equal to its own whitespace-trim, a
successful `cache_event_id s` followed by `get_cached_event_id` reads back
exactly `s`; and a cache file whose contents trim to the empty string is
treated as absent. -/
theorem C9_cache_roundtrip (s : String) (file : Option String) (writeOk : Bool)
    (hs : s ≠ "") (htrim : pyStrip s = s) :
    ((cache_event_id writeOk file s).1 = true →
      get_cached_event_id true (cache_event_id writeOk file s).2 = some s)
    ∧ (∀ c : String, pyStrip c = "" → get_cached_event_id true (some c) = none) := by
  constructor
  · intro hw
    unfold cache_event_id at hw ⊢
    by_cases h : writeOk = true
    · simp only [h, if_true]
      simp [get_cached_event_id, htrim, hs]
    · simp [h] at hw
  · intro c hc
    simp [get_cached_event_id, hc]

/-- Witness for C9 at concrete inputs: caching "ev-1" over an empty store
reads back "ev-1", and a whitespace-only cache file reads as absent. -/
theorem C9_cache_roundtrip_witness :
    get_cached_event_id true (cache_event_id true none "ev-1").2 = some "ev-1"
    ∧ get_cached_event_id true (some "  ") = none := by
  have h := C9_cache_roundtrip "ev-1" none true (by decide) (by decide)
  exact ⟨h.1 rfl, h.2 "  " (by decide)⟩

/-! ## Orchestrator: process_event / run -/

/-- The status strings POSTed best-effort to `/control/initStatus` along the
run (`report_init_status` is fire-and-forget, so only the attempted reports
are traced).  One constructor per distinct status string of the source. -/
inductive Report where
  | eidUnknown
  | eidKnown
  | queryingToken
  | tokenRetrieved
  | startingConfigure
  | failedConfigure
  | configuredRobot
  | configuredOkay
deriving DecidableEq

/-- How `process_event` ends: a normal `return b`, or an exception escaping
it (the `NameError` raised inside `run_ansible_playbook`'s broken `except`
handlers is the only in-scope raise). -/
inductive PResult where
  | ret (b : Bool)
  | raised
deriving DecidableEq

/-- The oracles of one orchestration run: every effectful callee's outcome.
`cacheFile`/`tokenFile` are the initial contents of the two persisted files
(`none` = absent); `clusterUrl` is the result of `get_cluster_url` (whose
redirect-chase strategy is modelled separately by
`get_cluster_url_redirect`); `eventIdResp` is `query_event_id`'s return
(`none` = `RequestException`); `tokenResps` feeds `query_skupper_token`;
`playbookAttempts` and `playbookRetries` feed `run_ansible_playbook`;
`cacheWriteOk` is whether writing the cache file succeeds; `skupperOutcome`
feeds `check_skupper_tunnel`; `unlinkOk` is whether removing the token file
succeeds (`OSError` is caught and logged otherwise). -/
structure World where
  cacheFile : Option String
  cacheReadOk : Bool
  tokenFile : Option String
  clusterUrl : Option String
  eventIdResp : Option String
  tokenResps : Nat → TokenResp
  playbookAttempts : Nat → AttemptOutcome
  playbookRetries : Nat
  cacheWriteOk : Bool
  skupperOutcome : SkupperOutcome
  unlinkOk : Bool

/-- Observable state of a run: final file contents plus a trace of which
phases executed.  `provisionSucceeded` is set exactly where
`run_ansible_playbook` returned `True`; `cacheWriteAttempted` exactly where
`cache_event_id` was called; `probeInvoked`/`settleWaited` exactly where
`_remove_token_file_after_tunnel_up` ran its probe after the settle sleep. -/
structure RunState where
  cacheFile : Option String
  tokenFile : Option String
  reports : List Report
  tokenFetchInvoked : Bool
  playbookInvoked : Bool
  provisionSucceeded : Bool
  cacheWriteAttempted : Bool
  probeInvoked : Bool
  settleWaited : Bool
deriving DecidableEq

/-- State at the start of `process_event`: files as on disk, nothing done. -/
def initState (w : World) : RunState :=
  { cacheFile := w.cacheFile, tokenFile := w.tokenFile, reports := []
    tokenFetchInvoked := false, playbookInvoked := false
    provisionSucceeded := false, cacheWriteAttempted := false
    probeInvoked := false, settleWaited := false }

/-- Append one attempted initStatus report. -/
def addReport (st : RunState) (r : Report) : RunState :=
  { st with reports := st.reports ++ [r] }

/-- The guard `if not current_event_id` of `process_event` (source line
458): a `RequestException` (`none`) and an id that parses to the empty
string are both treated as "could not retrieve event ID". -/
def currentEventId (w : World) : Option String :=
  match w.eventIdResp with
  | none => none
  | some s => if s = "" then none else some s

/-- State after `query_skupper_token` returned: the blocking fetch was
invoked, and both its surrounding initStatus reports were attempted (the
"retrieved" report is posted before `process_event` checks the token for
emptiness, source lines 298-299). -/
def tokenPhaseState (st : RunState) : RunState :=
  { st with tokenFetchInvoked := true
            reports := st.reports ++ [.queryingToken, .tokenRetrieved] }

/-- State once `run_ansible_playbook` has started: the "starting configure"
report was attempted and each attempt first writes the token to the secret
file (source lines 362-364), so after at least one attempt the token file
holds the token. -/
def playbookState (st : RunState) (tok : String) : RunState :=
  { st with tokenFetchInvoked := true, playbookInvoked := true
            tokenFile := some tok
            reports := st.reports ++ [.queryingToken, .tokenRetrieved, .startingConfigure] }

/-- Embedding of `_remove_token_file_after_tunnel_up` (source lines
345-358): return immediately if the token file is absent; otherwise sleep
the settle delay, probe the tunnel, and unlink the file only when the probe
reports "up" (a failed unlink is caught and leaves the file). -/
def remove_token_file_after_tunnel_up (w : World) (st : RunState) : RunState :=
  match st.tokenFile with
  | none => st
  | some _ =>
    let st' := { st with settleWaited := true, probeInvoked := true }
    if check_skupper_tunnel w.skupperOutcome then
      if w.unlinkOk then { st' with tokenFile := none } else st'
    else st'

/-- The tail of both provisioning branches of `process_event` after the
playbook succeeded (source lines 477-483 and 502-508): report success
(`configuredRobot` in the no-cached-id branch, `configuredOkay` in the
changed-id branch), then try to cache the current event id; on a successful
write run the token-file cleanup and return `True`, otherwise log a warning
and return `False`. -/
def commitPhase (w : World) (current : String) (okReport : Report) (st : RunState) :
    PResult × RunState :=
  if w.cacheWriteOk then
    (.ret true,
      remove_token_file_after_tunnel_up w
        { st with provisionSucceeded := true, cacheWriteAttempted := true
                  cacheFile := some current
                  reports := st.reports ++ [okReport] })
  else
    (.ret false,
      { st with provisionSucceeded := true, cacheWriteAttempted := true
                reports := st.reports ++ [okReport] })

/-- The shared provisioning sequence of both `process_event` branches
(source lines 465-483 and 492-508): blocking token fetch, empty-token
guard, playbook with retries, then `commitPhase`.  `none` propagates the
token loop still running within `fuel`. -/
def provisionAndCommit (w : World) (fuel : Nat) (current : String) (okReport : Report)
    (st : RunState) : Option (PResult × RunState) :=
  match query_skupper_token w.tokenResps fuel 0 with
  | none => none
  | some tok =>
    if tok = "" then some (.ret false, tokenPhaseState st)
    else
      match run_ansible_playbook w.playbookAttempts w.playbookRetries with
      | (.raised, _) => some (.raised, playbookState st tok)
      | (.ok false, _) =>
        some (.ret false, addReport (playbookState st tok) .failedConfigure)
      | (.ok true, _) => some (commitPhase w current okReport (playbookState st tok))

/-- Embedding of `process_event` (source lines 443-508). -/
def process_event (w : World) (fuel : Nat) : Option (PResult × RunState) :=
  match w.clusterUrl with
  | none => some (.ret false, initState w)
  | some _ =>
    match currentEventId w with
    | none => some (.ret false, initState w)
    | some current =>
      match get_cached_event_id w.cacheReadOk w.cacheFile with
      | none =>
        provisionAndCommit w fuel current .configuredRobot
          (addReport (initState w) .eidUnknown)
      | some cid =>
        if cid = current then some (.ret true, addReport (initState w) .eidKnown)
        else provisionAndCommit w fuel current .configuredOkay (initState w)

/-- Embedding of `run` (source lines 510-536) at the level of the process
exit status: `process_event` returning normally — `True` or `False` alike —
falls through to a normal process exit (status 0); only an exception caught
by the top-level handler leads to `sys.exit(1)`.  `none` again means the
token loop is still blocking. -/
def run_exit_status (w : World) (fuel : Nat) : Option Nat :=
  match process_event w fuel with
  | none => none
  | some (.raised, _) => some 1
  | some (.ret _, _) => some 0

/-! ### Helper lemmas: redirect chase -/

lemma follow_redirects_length_le (resp : String → RedirResp) :
    ∀ (fuel : Nat) (seen : List String) (url : String),
      (follow_redirects resp fuel seen url).2.length ≤ fuel := by
  intro fuel
  induction fuel with
  | zero => intro seen url; simp [follow_redirects]
  | succ n ih =>
    intro seen url
    unfold follow_redirects
    by_cases h : url ∈ seen
    · simp [h]
    · rw [if_neg h]
      cases hr : resp url
      · simp
      · simpa using Nat.succ_le_succ (ih (url :: seen) _)
      · simp

lemma follow_redirects_all_redirect (resp : String → RedirResp)
    (hall : ∀ u, isRedirect (resp u) = true) :
    ∀ (fuel : Nat) (seen : List String) (url : String),
      (follow_redirects resp fuel seen url).1 = .absentStop := by
  intro fuel
  induction fuel with
  | zero => intro seen url; rfl
  | succ n ih =>
    intro seen url
    unfold follow_redirects
    by_cases h : url ∈ seen
    · simp [h]
    · rw [if_neg h]
      cases hr : resp url
      · have := hall url; rw [hr] at this; exact absurd this (by simp [isRedirect])
      · simpa using ih (url :: seen) _
      · have := hall url; rw [hr] at this; exact absurd this (by simp [isRedirect])

lemma follow_redirects_self_loop (resp : String → RedirResp) (url : String)
    (h : resp url = .redirect url) :
    ∀ fuel : Nat, follow_redirects resp (fuel + 2) [] url = (.absentStop, [url]) := by
  intro fuel
  have hin : follow_redirects resp (fuel + 1) [url] url = (.absentStop, []) := by
    unfold follow_redirects
    simp
  unfold follow_redirects
  simp [h, hin]

/-! ### Helper lemmas: playbook retry loop -/

lemma playbook_loop_count_le (attempts : Nat → AttemptOutcome) :
    ∀ (rem i : Nat), (playbook_attempt_loop attempts rem i).2 ≤ i + rem := by
  intro rem
  induction rem with
  | zero => intro i; simp [playbook_attempt_loop]
  | succ n ih =>
    intro i
    unfold playbook_attempt_loop
    cases attempts i
    · show i + 1 ≤ i + (n + 1); omega
    · show (playbook_attempt_loop attempts n (i + 1)).2 ≤ i + (n + 1)
      have := ih (i + 1); omega
    · show i + 1 ≤ i + (n + 1); omega
    · show i + 1 ≤ i + (n + 1); omega

lemma playbook_loop_all_nonzero (attempts : Nat → AttemptOutcome) :
    ∀ (rem i : Nat), (∀ j, j < rem → attempts (i + j) = .nonZeroExit) →
      playbook_attempt_loop attempts rem i = (.ok false, i + rem) := by
  intro rem
  induction rem with
  | zero => intro i _; rfl
  | succ n ih =>
    intro i h
    unfold playbook_attempt_loop
    have h0 : attempts i = .nonZeroExit := by
      have := h 0 (Nat.succ_pos n); simpa using this
    rw [h0]
    have hrec := ih (i + 1) (fun j hj => by
      have := h (j + 1) (by omega)
      rwa [show i + (j + 1) = i + 1 + j by omega] at this)
    rw [hrec]
    have : i + 1 + n = i + (n + 1) := by omega
    rw [this]

lemma playbook_loop_first_success (attempts : Nat → AttemptOutcome) :
    ∀ (k rem i : Nat), k < rem →
      (∀ j, j < k → attempts (i + j) = .nonZeroExit) →
      attempts (i + k) = .success →
      playbook_attempt_loop attempts rem i = (.ok true, i + k + 1) := by
  intro k
  induction k with
  | zero =>
    intro rem i hlt _ hs
    cases rem with
    | zero => omega
    | succ r =>
      unfold playbook_attempt_loop
      rw [show i + 0 = i by omega] at hs
      rw [hs]
  | succ n ih =>
    intro rem i hlt h hs
    cases rem with
    | zero => omega
    | succ r =>
      unfold playbook_attempt_loop
      have h0 : attempts i = .nonZeroExit := by
        have := h 0 (Nat.succ_pos n); simpa using this
      rw [h0]
      have hrec := ih r (i + 1) (by omega)
        (fun j hj => by
          have := h (j + 1) (by omega)
          rwa [show i + (j + 1) = i + 1 + j by omega] at this)
        (by rwa [show i + (n + 1) = i + 1 + n by omega] at hs)
      rw [hrec]
      have : i + 1 + n + 1 = i + (n + 1) + 1 := by omega
      rw [this]

lemma playbook_loop_first_raise (attempts : Nat → AttemptOutcome) :
    ∀ (k rem i : Nat), k < rem →
      (∀ j, j < k → attempts (i + j) = .nonZeroExit) →
      (attempts (i + k) = .timeout ∨ attempts (i + k) = .binaryMissing) →
      playbook_attempt_loop attempts rem i = (.raised, i + k + 1) := by
  intro k
  induction k with
  | zero =>
    intro rem i hlt _ hs
    cases rem with
    | zero => omega
    | succ r =>
      unfold playbook_attempt_loop
      rw [show i + 0 = i by omega] at hs
      rcases hs with hs | hs <;> rw [hs]
  | succ n ih =>
    intro rem i hlt h hs
    cases rem with
    | zero => omega
    | succ r =>
      unfold playbook_attempt_loop
      have h0 : attempts i = .nonZeroExit := by
        have := h 0 (Nat.succ_pos n); simpa using this
      rw [h0]
      have hrec := ih r (i + 1) (by omega)
        (fun j hj => by
          have := h (j + 1) (by omega)
          rwa [show i + (j + 1) = i + 1 + j by omega] at this)
        (by rwa [show i + (n + 1) = i + 1 + n by omega] at hs)
      rw [hrec]
      have : i + 1 + n + 1 = i + (n + 1) + 1 := by omega
      rw [this]

/-! ### Helper lemmas: token retry loop -/

lemma query_token_none_of_no200 (resps : Nat → TokenResp)
    (hall : ∀ i, is200 (resps i) = false) :
    ∀ (fuel i : Nat), query_skupper_token resps fuel i = none := by
  intro fuel
  induction fuel with
  | zero => intro i; rfl
  | succ n ih =>
    intro i
    unfold query_skupper_token
    cases hr : resps i with
    | err => exact ih (i + 1)
    | resp s b =>
      have hs : is200 (TokenResp.resp s b) = false := by rw [← hr]; exact hall i
      have : ¬ s = 200 := by
        intro hcontra
        rw [hcontra] at hs
        exact absurd hs (by simp [is200])
      show (if s = 200 then some (parseTokenBody b) else query_skupper_token resps n (i + 1))
        = none
      rw [if_neg this]
      exact ih (i + 1)

lemma query_token_first200 (resps : Nat → TokenResp) :
    ∀ (k i m : Nat) (b : Body),
      (∀ j, j < k → is200 (resps (i + j)) = false) →
      resps (i + k) = .resp 200 b →
      query_skupper_token resps (m + k + 1) i = some (parseTokenBody b) := by
  intro k
  induction k with
  | zero =>
    intro i m b _ h200
    rw [show i + 0 = i by omega] at h200
    unfold query_skupper_token
    rw [h200]
    simp
  | succ n ih =>
    intro i m b h h200
    have hstep : query_skupper_token resps (m + n + 1) (i + 1) = some (parseTokenBody b) :=
      ih (i + 1) m b
        (fun j hj => by
          have := h (j + 1) (by omega)
          rwa [show i + (j + 1) = i + 1 + j by omega] at this)
        (by rwa [show i + (n + 1) = i + 1 + n by omega] at h200)
    show query_skupper_token resps (m + n + 1 + 1) i = some (parseTokenBody b)
    unfold query_skupper_token
    cases hr : resps i with
    | err => exact hstep
    | resp s b' =>
      have hs : is200 (TokenResp.resp s b') = false := by
        rw [← hr]
        have := h 0 (Nat.succ_pos n)
        rwa [show i + 0 = i by omega] at this
      have : ¬ s = 200 := by
        intro hcontra
        rw [hcontra] at hs
        exact absurd hs (by simp [is200])
      show (if s = 200 then some (parseTokenBody b')
          else query_skupper_token resps (m + n + 1) (i + 1))
        = some (parseTokenBody b)
      rw [if_neg this]
      exact hstep

/-! ### Claim theorems for resolver, provisioner, token client -/

/-- C7: each redirect-chase attempt requests at most 10 URLs; over a world
in which every response is a redirect (in particular over any cyclic set of
Location headers) the whole bounded-retry resolution returns Absent for
every retry budget, so the chase never loops indefinitely; and a direct
self-redirect is detected by the visited set after a single request, failing
the attempt immediately. -/
theorem C7_redirect_chase_terminates (resp : String → RedirResp) (url : String) :
    (follow_redirects resp 10 [] url).2.length ≤ 10
    ∧ ((∀ u, isRedirect (resp u) = true) →
        ∀ retries, get_cluster_url_redirect resp url retries = none)
    ∧ (resp url = .redirect url →
        follow_redirects resp 10 [] url = (.absentStop, [url])) := by
  refine ⟨follow_redirects_length_le resp 10 [] url, ?_, ?_⟩
  · intro hall retries
    induction retries with
    | zero => rfl
    | succ n ih =>
      unfold get_cluster_url_redirect
      rw [follow_redirects_all_redirect resp hall 10 [] url]
  · intro h
    exact follow_redirects_self_loop resp url h 8

/-- Witness for C7: over the all-redirect world (every URL redirects to
itself) the resolution returns Absent with a budget of 3 attempts. -/
theorem C7_redirect_chase_terminates_witness :
    get_cluster_url_redirect (fun u => RedirResp.redirect u) "a" 3 = none :=
  (C7_redirect_chase_terminates (fun u => RedirResp.redirect u) "a").2.1
    (fun _ => rfl) 3

/-- C3 (amended): `run_ansible_playbook` starts at most `max 1
PLAYBOOK_RETRIES` attempts; when every attempt exits non-zero it returns
Failure only after exhausting all of them; the first successful attempt
returns Success immediately with no further attempts; but a timeout or a
missing binary is NOT retried — the first such attempt aborts the function
immediately (and, because the `except` handlers reference the undefined name
`cluster_url`, the abort escapes as an exception rather than a Failure
return). -/
theorem C3_playbook_retry_behavior (attempts : Nat → AttemptOutcome) (retries : Nat) :
    (run_ansible_playbook attempts retries).2 ≤ max 1 retries
    ∧ ((∀ i, i < max 1 retries → attempts i = .nonZeroExit) →
        run_ansible_playbook attempts retries = (.ok false, max 1 retries))
    ∧ (∀ k, k < max 1 retries → (∀ j, j < k → attempts j = .nonZeroExit) →
        attempts k = .success →
        run_ansible_playbook attempts retries = (.ok true, k + 1))
    ∧ (∀ k, k < max 1 retries → (∀ j, j < k → attempts j = .nonZeroExit) →
        (attempts k = .timeout ∨ attempts k = .binaryMissing) →
        run_ansible_playbook attempts retries = (.raised, k + 1)) := by
  unfold run_ansible_playbook
  refine ⟨?_, ?_, ?_, ?_⟩
  · have := playbook_loop_count_le attempts (max 1 retries) 0
    omega
  · intro h
    have := playbook_loop_all_nonzero attempts (max 1 retries) 0
      (fun j hj => by rw [Nat.zero_add]; exact h j hj)
    rw [this, Nat.zero_add]
  · intro k hk h hs
    have := playbook_loop_first_success attempts k (max 1 retries) 0 hk
      (fun j hj => by rw [Nat.zero_add]; exact h j hj)
      (by rwa [Nat.zero_add])
    rw [this, Nat.zero_add]
  · intro k hk h hs
    have := playbook_loop_first_raise attempts k (max 1 retries) 0 hk
      (fun j hj => by rw [Nat.zero_add]; exact h j hj)
      (by rwa [Nat.zero_add])
    rw [this, Nat.zero_add]

/-- Witness for C3 (amended): with a budget of 2 and every attempt exiting
non-zero, the playbook runner returns Failure after exactly 2 attempts. -/
theorem C3_playbook_retry_behavior_witness :
    run_ansible_playbook (fun _ => AttemptOutcome.nonZeroExit) 2 = (.ok false, 2) :=
  (C3_playbook_retry_behavior (fun _ => AttemptOutcome.nonZeroExit) 2).2.1
    (fun _ _ => rfl)

/-- Counterexample for C3 as stated: with 2 configured attempts, a timeout
on the first attempt is not retried — the function aborts (raising, not
returning Failure) after a single attempt, even though the second attempt
would have succeeded. -/
theorem C3_counterexample :
    run_ansible_playbook (fun i => if i = 0 then AttemptOutcome.timeout else .success) 2
      = (.raised, 1)
    ∧ (fun i => if i = 0 then AttemptOutcome.timeout else AttemptOutcome.success) 1
      = .success := by
  constructor
  · rfl
  · rfl

/-- C8: the token query loop retries indefinitely on non-200 responses and
network errors — if no attempt ever returns HTTP 200 the loop has not
returned after any number of iterations (it neither raises nor returns
Absent for those conditions, which are caught and retried); and it returns
exactly on the first HTTP 200 response, with the token parsed from that
response's body. -/
theorem C8_token_query_blocks_until_200 (resps : Nat → TokenResp) :
    ((∀ i, is200 (resps i) = false) →
      ∀ fuel i, query_skupper_token resps fuel i = none)
    ∧ (∀ k b, (∀ j, j < k → is200 (resps j) = false) → resps k = .resp 200 b →
        ∀ m, query_skupper_token resps (m + k + 1) 0 = some (parseTokenBody b)) := by
  constructor
  · intro hall
    exact query_token_none_of_no200 resps hall
  · intro k b h h200 m
    exact query_token_first200 resps k 0 m b
      (fun j hj => by rw [Nat.zero_add]; exact h j hj)
      (by rwa [Nat.zero_add])

/-- Witness for C8: a network error on the first attempt is retried and the
HTTP 200 on the second attempt ends the loop with the parsed token. -/
theorem C8_token_query_blocks_until_200_witness :
    parseTokenBody (Body.text "tok") = "tok"
    ∧ query_skupper_token
        (fun i => if i = 0 then TokenResp.err else TokenResp.resp 200 (Body.text "tok"))
        2 0 = some (parseTokenBody (Body.text "tok")) := by
  constructor
  · rfl
  · exact (C8_token_query_blocks_until_200
      (fun i => if i = 0 then TokenResp.err else TokenResp.resp 200 (Body.text "tok"))).2
      1 (Body.text "tok")
      (fun j hj => by
        have hj0 : j = 0 := Nat.lt_one_iff.mp hj
        subst hj0
        rfl)
      rfl 0

/-! ### Helper lemmas: orchestrator -/

@[simp] lemma rtfu_cacheFile (w : World) (st : RunState) :
    (remove_token_file_after_tunnel_up w st).cacheFile = st.cacheFile := by
  unfold remove_token_file_after_tunnel_up
  split
  · rfl
  · dsimp only
    split
    · split <;> rfl
    · rfl

@[simp] lemma rtfu_provision (w : World) (st : RunState) :
    (remove_token_file_after_tunnel_up w st).provisionSucceeded = st.provisionSucceeded := by
  unfold remove_token_file_after_tunnel_up
  split
  · rfl
  · dsimp only
    split
    · split <;> rfl
    · rfl

@[simp] lemma rtfu_attempted (w : World) (st : RunState) :
    (remove_token_file_after_tunnel_up w st).cacheWriteAttempted = st.cacheWriteAttempted := by
  unfold remove_token_file_after_tunnel_up
  split
  · rfl
  · dsimp only
    split
    · split <;> rfl
    · rfl

@[simp] lemma rtfu_tokenFetch (w : World) (st : RunState) :
    (remove_token_file_after_tunnel_up w st).tokenFetchInvoked = st.tokenFetchInvoked := by
  unfold remove_token_file_after_tunnel_up
  split
  · rfl
  · dsimp only
    split
    · split <;> rfl
    · rfl

@[simp] lemma rtfu_playbook (w : World) (st : RunState) :
    (remove_token_file_after_tunnel_up w st).playbookInvoked = st.playbookInvoked := by
  unfold remove_token_file_after_tunnel_up
  split
  · rfl
  · dsimp only
    split
    · split <;> rfl
    · rfl

lemma rtfu_tokenFile_some (w : World) (st : RunState) (h : st.tokenFile ≠ none) :
    (remove_token_file_after_tunnel_up w st).probeInvoked = true
    ∧ (remove_token_file_after_tunnel_up w st).settleWaited = true
    ∧ ((remove_token_file_after_tunnel_up w st).tokenFile = none ↔
        (check_skupper_tunnel w.skupperOutcome = true ∧ w.unlinkOk = true)) := by
  unfold remove_token_file_after_tunnel_up
  cases htf : st.tokenFile with
  | none => exact absurd htf h
  | some tok =>
    dsimp only
    by_cases hc : check_skupper_tunnel w.skupperOutcome = true
    · by_cases hu : w.unlinkOk = true
      · simp [hc, hu]
      · simp [hc, hu, htf]
    · simp [hc, htf]

/-- Full characterisation of the provisioning tail shared by both
`process_event` branches, given a pre-state that has done nothing yet. -/
lemma provisionAndCommit_spec (w : World) (fuel : Nat) (current : String) (okR : Report)
    (st0 : RunState) (r : PResult) (st : RunState)
    (hc0 : st0.cacheFile = w.cacheFile)
    (ha0 : st0.cacheWriteAttempted = false)
    (hp0 : st0.provisionSucceeded = false)
    (hpl0 : st0.playbookInvoked = false)
    (hpr0 : st0.probeInvoked = false)
    (h : provisionAndCommit w fuel current okR st0 = some (r, st)) :
    st.tokenFetchInvoked = true
    ∧ st.cacheWriteAttempted = st.provisionSucceeded
    ∧ (st.cacheWriteAttempted = true → w.cacheWriteOk = true →
        r = .ret true ∧ st.cacheFile = some current ∧ st.probeInvoked = true
        ∧ st.settleWaited = true
        ∧ (st.tokenFile = none ↔
            (check_skupper_tunnel w.skupperOutcome = true ∧ w.unlinkOk = true)))
    ∧ (st.cacheWriteAttempted = true → w.cacheWriteOk = false →
        r = .ret false ∧ st.cacheFile = w.cacheFile ∧ st.probeInvoked = false
        ∧ ∃ tok, st.tokenFile = some tok)
    ∧ (st.cacheWriteAttempted = false →
        st.cacheFile = w.cacheFile ∧ st.probeInvoked = false ∧ r ≠ .ret true)
    ∧ (query_skupper_token w.tokenResps fuel 0 = some "" →
        r = .ret false ∧ st.playbookInvoked = false ∧ st.cacheFile = w.cacheFile) := by
  unfold provisionAndCommit at h
  split at h
  · exact Option.noConfusion h
  · rename_i tok heq
    split at h
    · rename_i htok
      simp only [Option.some.injEq, Prod.mk.injEq] at h
      obtain ⟨hr, hst⟩ := h
      subst hr
      subst hst
      refine ⟨?_, ?_, ?_, ?_, ?_, ?_⟩ <;>
        simp [tokenPhaseState, ha0, hp0, hc0, hpl0, hpr0]
    · rename_i htok
      split at h
      · rename_i n heqp
        simp only [Option.some.injEq, Prod.mk.injEq] at h
        obtain ⟨hr, hst⟩ := h
        subst hr
        subst hst
        refine ⟨?_, ?_, ?_, ?_, ?_, ?_⟩ <;>
          simp [playbookState, ha0, hp0, hc0, hpl0, hpr0]
        intro hq
        rw [heq] at hq
        injection hq with hq'
        exact absurd hq' htok
      · rename_i n heqp
        simp only [Option.some.injEq, Prod.mk.injEq] at h
        obtain ⟨hr, hst⟩ := h
        subst hr
        subst hst
        refine ⟨?_, ?_, ?_, ?_, ?_, ?_⟩ <;>
          simp [addReport, playbookState, ha0, hp0, hc0, hpl0, hpr0]
        intro hq
        rw [heq] at hq
        injection hq with hq'
        exact absurd hq' htok
      · rename_i n heqp
        unfold commitPhase at h
        split at h
        · rename_i hwk
          simp only [Option.some.injEq, Prod.mk.injEq] at h
          obtain ⟨hr, hst⟩ := h
          subst hr
          subst hst
          have htf := rtfu_tokenFile_some w
            { playbookState st0 tok with
                provisionSucceeded := true, cacheWriteAttempted := true
                cacheFile := some current
                reports := (playbookState st0 tok).reports ++ [okR] }
            (by simp [playbookState])
          refine ⟨?_, ?_, ?_, ?_, ?_, ?_⟩
          · simp [playbookState]
          · simp
          · intro _ _
            exact ⟨rfl, by simp, htf.1, htf.2.1, htf.2.2⟩
          · intro _ hwf
            rw [hwk] at hwf
            exact Bool.noConfusion hwf
          · intro hfa
            rw [show (remove_token_file_after_tunnel_up w
                { playbookState st0 tok with
                    provisionSucceeded := true, cacheWriteAttempted := true
                    cacheFile := some current
                    reports := (playbookState st0 tok).reports ++ [okR] }).cacheWriteAttempted
                = true from by simp] at hfa
            exact Bool.noConfusion hfa
          · intro hq
            rw [heq] at hq
            injection hq with hq'
            exact absurd hq' htok
        · rename_i hwk
          simp only [Option.some.injEq, Prod.mk.injEq] at h
          obtain ⟨hr, hst⟩ := h
          subst hr
          subst hst
          refine ⟨?_, ?_, ?_, ?_, ?_, ?_⟩
          · simp [playbookState]
          · simp
          · intro _ hwt
            rw [hwt] at hwk
            exact absurd rfl hwk
          · intro _ _
            exact ⟨rfl, by simp [playbookState, hc0], by simp [playbookState, hpr0],
              tok, by simp [playbookState]⟩
          · intro hfa
            simp at hfa
          · intro hq
            rw [heq] at hq
            injection hq with hq'
            exact absurd hq' htok

/-! ### Concrete worlds used by counterexamples and witnesses -/

/-- A world in which resolution, event query, token fetch and provisioning
all succeed but the cache write fails (e.g. `PermissionError`). -/
def wWriteFail : World :=
  { cacheFile := none, cacheReadOk := true, tokenFile := none
    clusterUrl := some "cl", eventIdResp := some "ev-2"
    tokenResps := fun _ => .resp 200 (.text "tok")
    playbookAttempts := fun _ => .success, playbookRetries := 2
    cacheWriteOk := false
    skupperOutcome := .completed 0 "connected to 1 other site", unlinkOk := true }

/-- Scenario 3 of the spec: cached "ev-1", current "ev-2", provisioning
fails on all bounded retries. -/
def wProvFail : World :=
  { cacheFile := some "ev-1", cacheReadOk := true, tokenFile := none
    clusterUrl := some "cl", eventIdResp := some "ev-2"
    tokenResps := fun _ => .resp 200 (.text "tok")
    playbookAttempts := fun _ => .nonZeroExit, playbookRetries := 2
    cacheWriteOk := true, skupperOutcome := .timedOut, unlinkOk := true }

/-- Cached "ev-1", current "ev-2", provisioning succeeds, cache write fails,
tunnel probe would report "up". -/
def wWriteFailTunnelUp : World :=
  { cacheFile := some "ev-1", cacheReadOk := true, tokenFile := none
    clusterUrl := some "cl", eventIdResp := some "ev-2"
    tokenResps := fun _ => .resp 200 (.text "tok")
    playbookAttempts := fun _ => .success, playbookRetries := 2
    cacheWriteOk := false
    skupperOutcome := .completed 0 "connected to 1 other site", unlinkOk := true }

/-- Scenario 1 of the spec: no cached id, everything succeeds, probe up. -/
def wAllOk : World :=
  { cacheFile := none, cacheReadOk := true, tokenFile := none
    clusterUrl := some "cl", eventIdResp := some "ev-42"
    tokenResps := fun _ => .resp 200 (.text "tok")
    playbookAttempts := fun _ => .success, playbookRetries := 2
    cacheWriteOk := true
    skupperOutcome := .completed 0 "connected to 1 other site", unlinkOk := true }

/-- The final state of a run over `wAllOk`. -/
def wAllOkFinal : RunState :=
  { cacheFile := some "ev-42", tokenFile := none
    reports := [.eidUnknown, .queryingToken, .tokenRetrieved, .startingConfigure,
      .configuredRobot]
    tokenFetchInvoked := true, playbookInvoked := true, provisionSucceeded := true
    cacheWriteAttempted := true, probeInvoked := true, settleWaited := true }

/-- Scenario 2 of the spec: cached id equals current id. -/
def wSame : World :=
  { cacheFile := some "ev-1", cacheReadOk := true, tokenFile := none
    clusterUrl := some "cl", eventIdResp := some "ev-1"
    tokenResps := fun _ => .err
    playbookAttempts := fun _ => .nonZeroExit, playbookRetries := 1
    cacheWriteOk := true, skupperOutcome := .timedOut, unlinkOk := true }

/-- Resolution fails outright. -/
def wNoCluster : World :=
  { cacheFile := none, cacheReadOk := true, tokenFile := none
    clusterUrl := none, eventIdResp := none
    tokenResps := fun _ => .err
    playbookAttempts := fun _ => .nonZeroExit, playbookRetries := 1
    cacheWriteOk := true, skupperOutcome := .timedOut, unlinkOk := true }

/-- The token endpoint answers HTTP 200 with a body that parses (via the
plain-text path) to the empty string. -/
def wEmptyTok : World :=
  { cacheFile := none, cacheReadOk := true, tokenFile := none
    clusterUrl := some "cl", eventIdResp := some "ev-2"
    tokenResps := fun _ => .resp 200 (.text "")
    playbookAttempts := fun _ => .success, playbookRetries := 2
    cacheWriteOk := true, skupperOutcome := .timedOut, unlinkOk := true }

/-- The final state of a run over `wEmptyTok`. -/
def wEmptyTokFinal : RunState :=
  { cacheFile := none, tokenFile := none
    reports := [.eidUnknown, .queryingToken, .tokenRetrieved]
    tokenFetchInvoked := true, playbookInvoked := false, provisionSucceeded := false
    cacheWriteAttempted := false, probeInvoked := false, settleWaited := false }

/-! ### Orchestrator claim theorems -/

/-- C1 (amended): in every terminating run, a cache write is attempted
exactly when the full provisioning attempt (blocking token fetch followed by
external-tool success) completed; when it is attempted and the write itself
succeeds, the cache holds the currently-queried event identifier; when the
write fails, or when no write was attempted (endpoint-resolution failure,
event-id query failure, token absence, provisioning failure, unchanged id),
the cached state is unchanged. -/
theorem C1_cache_write_iff_provision (w : World) (fuel : Nat) (r : PResult) (st : RunState)
    (h : process_event w fuel = some (r, st)) :
    st.cacheWriteAttempted = st.provisionSucceeded
    ∧ (st.cacheWriteAttempted = true → w.cacheWriteOk = true →
        ∃ cur, currentEventId w = some cur ∧ st.cacheFile = some cur)
    ∧ (st.cacheWriteAttempted = true → w.cacheWriteOk = false →
        st.cacheFile = w.cacheFile)
    ∧ (st.cacheWriteAttempted = false → st.cacheFile = w.cacheFile) := by
  unfold process_event at h
  split at h
  · simp only [Option.some.injEq, Prod.mk.injEq] at h
    obtain ⟨hr, hst⟩ := h
    subst hr
    subst hst
    exact ⟨rfl, by intro hx; simp [initState] at hx,
      by intro hx; simp [initState] at hx, fun _ => rfl⟩
  · split at h
    · simp only [Option.some.injEq, Prod.mk.injEq] at h
      obtain ⟨hr, hst⟩ := h
      subst hr
      subst hst
      exact ⟨rfl, by intro hx; simp [initState] at hx,
        by intro hx; simp [initState] at hx, fun _ => rfl⟩
    · rename_i current hcur
      split at h
      · have hs := provisionAndCommit_spec w fuel current .configuredRobot
          (addReport (initState w) .eidUnknown) r st
          (by simp [addReport, initState]) (by simp [addReport, initState])
          (by simp [addReport, initState]) (by simp [addReport, initState])
          (by simp [addReport, initState]) h
        refine ⟨hs.2.1, ?_, ?_, ?_⟩
        · intro ha hw
          exact ⟨current, hcur, (hs.2.2.1 ha hw).2.1⟩
        · intro ha hw
          exact (hs.2.2.2.1 ha hw).2.1
        · intro ha
          exact (hs.2.2.2.2.1 ha).1
      · split at h
        · simp only [Option.some.injEq, Prod.mk.injEq] at h
          obtain ⟨hr, hst⟩ := h
          subst hr
          subst hst
          exact ⟨rfl, by intro hx; simp [addReport, initState] at hx,
            by intro hx; simp [addReport, initState] at hx, fun _ => rfl⟩
        · have hs := provisionAndCommit_spec w fuel current .configuredOkay
            (initState w) r st
            (by simp [initState]) (by simp [initState]) (by simp [initState])
            (by simp [initState]) (by simp [initState]) h
          refine ⟨hs.2.1, ?_, ?_, ?_⟩
          · intro ha hw
            exact ⟨current, hcur, (hs.2.2.1 ha hw).2.1⟩
          · intro ha hw
            exact (hs.2.2.2.1 ha hw).2.1
          · intro ha
            exact (hs.2.2.2.2.1 ha).1

/-- Witness for C1 (amended) at the all-success world: a cache write was
attempted and the cache now holds the queried id "ev-42". -/
theorem C1_cache_write_iff_provision_witness :
    ∃ cur, currentEventId wAllOk = some cur ∧ wAllOkFinal.cacheFile = some cur :=
  (C1_cache_write_iff_provision wAllOk 1 (.ret true) wAllOkFinal (by decide)).2.1
    (by decide) (by decide)

/-- Counterexample for C1 as stated: a run in which the full provisioning
attempt completed for the queried id "ev-2" but the cached state was NOT
updated, because the cache write itself failed — refuting "updated if a full
provisioning attempt completed". -/
theorem C1_counterexample :
    (process_event wWriteFail 1).map
        (fun p => (p.1, p.2.provisionSucceeded, p.2.cacheFile))
      = some (.ret false, true, none)
    ∧ wWriteFail.cacheFile = none ∧ currentEventId wWriteFail = some "ev-2" := by
  exact ⟨by decide, rfl, by decide⟩

/-- C2 (amended): the process exit status is zero whenever `process_event`
returns normally —"True" and "False" (run failed with a handled error)
alike — and is non-zero exactly when an exception escapes `process_event`
(the only handled-by-exit-1 condition in `run`). -/
theorem C2_exit_status (w : World) (fuel : Nat) :
    (∀ b st, process_event w fuel = some (.ret b, st) → run_exit_status w fuel = some 0)
    ∧ (run_exit_status w fuel = some 1 ↔
        ∃ st, process_event w fuel = some (.raised, st)) := by
  constructor
  · intro b st h
    unfold run_exit_status
    rw [h]
  · unfold run_exit_status
    cases hpe : process_event w fuel with
    | none => simp
    | some p =>
      obtain ⟨pr, pst⟩ := p
      cases pr with
      | ret b => simp
      | raised => simp

/-- Witness for C2 (amended): a failed resolution returns normally and the
process exits 0. -/
theorem C2_exit_status_witness : run_exit_status wNoCluster 0 = some 0 :=
  (C2_exit_status wNoCluster 0).1 false (initState wNoCluster) rfl

/-- Counterexample for C2 as stated: provisioning fails on all bounded
retries, so the run fails (returns False, leaving the cached id at "ev-1"),
yet the process exits with status 0, not non-zero. -/
theorem C2_counterexample :
    (process_event wProvFail 1).map Prod.fst = some (.ret false)
    ∧ run_exit_status wProvFail 1 = some 0
    ∧ (process_event wProvFail 1).map (fun p => p.2.cacheFile)
      = some (some "ev-1") := by
  exact ⟨by decide, by decide, by decide⟩

/-- C4 (amended): after a full provisioning success, IF the cache write also
succeeds the orchestrator waits the settle delay, queries the tunnel probe,
and the secret token file ends up removed exactly when the probe reports
"up" and the OS permits the unlink; when the probe reports "down" the file
is never removed; and when the cache write fails the probe is not queried at
all and the file is left in place. -/
theorem C4_token_file_cleanup (w : World) (fuel : Nat) (r : PResult) (st : RunState)
    (h : process_event w fuel = some (r, st)) (hp : st.provisionSucceeded = true) :
    (w.cacheWriteOk = true →
      st.probeInvoked = true ∧ st.settleWaited = true
      ∧ (st.tokenFile = none ↔
          (check_skupper_tunnel w.skupperOutcome = true ∧ w.unlinkOk = true)))
    ∧ (check_skupper_tunnel w.skupperOutcome = false → st.tokenFile ≠ none)
    ∧ (w.cacheWriteOk = false → st.probeInvoked = false ∧ st.tokenFile ≠ none) := by
  unfold process_event at h
  split at h
  · simp only [Option.some.injEq, Prod.mk.injEq] at h
    obtain ⟨hr, hst⟩ := h
    subst hst
    simp [initState] at hp
  · split at h
    · simp only [Option.some.injEq, Prod.mk.injEq] at h
      obtain ⟨hr, hst⟩ := h
      subst hst
      simp [initState] at hp
    · rename_i current hcur
      split at h
      · have hs := provisionAndCommit_spec w fuel current .configuredRobot
          (addReport (initState w) .eidUnknown) r st
          (by simp [addReport, initState]) (by simp [addReport, initState])
          (by simp [addReport, initState]) (by simp [addReport, initState])
          (by simp [addReport, initState]) h
        have ha : st.cacheWriteAttempted = true := by rw [hs.2.1, hp]
        refine ⟨?_, ?_, ?_⟩
        · intro hw
          obtain ⟨_, _, hprobe, hsettle, hiff⟩ := hs.2.2.1 ha hw
          exact ⟨hprobe, hsettle, hiff⟩
        · intro hdown
          by_cases hw : w.cacheWriteOk = true
          · obtain ⟨_, _, _, _, hiff⟩ := hs.2.2.1 ha hw
            intro hnone
            have hup := (hiff.mp hnone).1
            rw [hup] at hdown
            exact Bool.noConfusion hdown
          · have hwf : w.cacheWriteOk = false := Bool.eq_false_iff.mpr hw
            obtain ⟨_, _, _, tok, htok⟩ := hs.2.2.2.1 ha hwf
            intro hnone
            rw [htok] at hnone
            exact Option.noConfusion hnone
        · intro hwf
          obtain ⟨_, _, hprobe, tok, htok⟩ := hs.2.2.2.1 ha hwf
          refine ⟨hprobe, ?_⟩
          rw [htok]
          exact fun hh => Option.noConfusion hh
      · split at h
        · simp only [Option.some.injEq, Prod.mk.injEq] at h
          obtain ⟨hr, hst⟩ := h
          subst hst
          simp [addReport, initState] at hp
        · have hs := provisionAndCommit_spec w fuel current .configuredOkay
            (initState w) r st
            (by simp [initState]) (by simp [initState]) (by simp [initState])
            (by simp [initState]) (by simp [initState]) h
          have ha : st.cacheWriteAttempted = true := by rw [hs.2.1, hp]
          refine ⟨?_, ?_, ?_⟩
          · intro hw
            obtain ⟨_, _, hprobe, hsettle, hiff⟩ := hs.2.2.1 ha hw
            exact ⟨hprobe, hsettle, hiff⟩
          · intro hdown
            by_cases hw : w.cacheWriteOk = true
            · obtain ⟨_, _, _, _, hiff⟩ := hs.2.2.1 ha hw
              intro hnone
              have hup := (hiff.mp hnone).1
              rw [hup] at hdown
              exact Bool.noConfusion hdown
            · have hwf : w.cacheWriteOk = false := Bool.eq_false_iff.mpr hw
              obtain ⟨_, _, _, tok, htok⟩ := hs.2.2.2.1 ha hwf
              intro hnone
              rw [htok] at hnone
              exact Option.noConfusion hnone
          · intro hwf
            obtain ⟨_, _, hprobe, tok, htok⟩ := hs.2.2.2.1 ha hwf
            refine ⟨hprobe, ?_⟩
            rw [htok]
            exact fun hh => Option.noConfusion hh

/-- Witness for C4 (amended) at the all-success world: the probe ran after
the settle wait and the token file was removed because the probe reported
"up". -/
theorem C4_token_file_cleanup_witness :
    wAllOkFinal.probeInvoked = true ∧ wAllOkFinal.settleWaited = true
    ∧ (wAllOkFinal.tokenFile = none ↔
        (check_skupper_tunnel wAllOk.skupperOutcome = true ∧ wAllOk.unlinkOk = true)) :=
  (C4_token_file_cleanup wAllOk 1 (.ret true) wAllOkFinal (by decide) (by decide)).1 rfl

/-- Counterexample for C4 as stated: provisioning succeeded and the tunnel
probe would report "up", yet the probe was never queried and the secret
token file was not removed, because the cache write failed first — refuting
"after a successful provisioning attempt the orchestrator ... queries the
tunnel probe, and removes the persisted secret token file iff the probe
reports up". -/
theorem C4_counterexample :
    (process_event wWriteFailTunnelUp 1).map
        (fun p => (p.2.provisionSucceeded, p.2.probeInvoked, p.2.tokenFile))
      = some (true, false, some "tok")
    ∧ check_skupper_tunnel wWriteFailTunnelUp.skupperOutcome = true := by
  exact ⟨by decide, by decide⟩

/-- C5: whenever the cached id is present and equal to the queried current
id, the run reports "EID known", invokes neither the token fetch nor the
provisioning tool, leaves the cached state (and the token file) unchanged,
and returns success. -/
theorem C5_unchanged_event_no_action (w : World) (fuel : Nat) (u cur cid : String)
    (hc : w.clusterUrl = some u) (he : currentEventId w = some cur)
    (hg : get_cached_event_id w.cacheReadOk w.cacheFile = some cid) (heq : cid = cur) :
    process_event w fuel = some (.ret true, addReport (initState w) .eidKnown)
    ∧ (addReport (initState w) .eidKnown).tokenFetchInvoked = false
    ∧ (addReport (initState w) .eidKnown).playbookInvoked = false
    ∧ (addReport (initState w) .eidKnown).cacheFile = w.cacheFile
    ∧ (addReport (initState w) .eidKnown).tokenFile = w.tokenFile
    ∧ (addReport (initState w) .eidKnown).reports = [.eidKnown] := by
  subst heq
  refine ⟨?_, rfl, rfl, rfl, rfl, rfl⟩
  unfold process_event
  rw [hc, he, hg]
  simp

/-- Witness for C5 at the unchanged-id world. -/
theorem C5_unchanged_event_no_action_witness :
    process_event wSame 0 = some (.ret true, addReport (initState wSame) .eidKnown) :=
  (C5_unchanged_event_no_action wSame 0 "cl" "ev-1" "ev-1" rfl (by decide) (by decide)
    rfl).1

/-- C10: if the blocking token fetch was invoked and returned a token that
is the empty string (which the retry loop does return, rather than retrying,
whenever the first HTTP 200 response's body parses to the empty string),
then `process_event` returns failure without invoking the provisioning tool
and without mutating the cached event identifier. -/
theorem C10_empty_token_fails_run :
    (∀ (w : World) (fuel : Nat) (r : PResult) (st : RunState),
      process_event w fuel = some (r, st) → st.tokenFetchInvoked = true →
      query_skupper_token w.tokenResps fuel 0 = some "" →
      r = .ret false ∧ st.playbookInvoked = false ∧ st.cacheFile = w.cacheFile)
    ∧ (∀ (resps : Nat → TokenResp) (b : Body) (fuel : Nat),
        resps 0 = .resp 200 b → parseTokenBody b = "" →
        query_skupper_token resps (fuel + 1) 0 = some "") := by
  constructor
  · intro w fuel r st h htf hq
    unfold process_event at h
    split at h
    · simp only [Option.some.injEq, Prod.mk.injEq] at h
      obtain ⟨hr, hst⟩ := h
      subst hst
      simp [initState] at htf
    · split at h
      · simp only [Option.some.injEq, Prod.mk.injEq] at h
        obtain ⟨hr, hst⟩ := h
        subst hst
        simp [initState] at htf
      · rename_i current hcur
        split at h
        · have hs := provisionAndCommit_spec w fuel current .configuredRobot
            (addReport (initState w) .eidUnknown) r st
            (by simp [addReport, initState]) (by simp [addReport, initState])
            (by simp [addReport, initState]) (by simp [addReport, initState])
            (by simp [addReport, initState]) h
          exact hs.2.2.2.2.2 hq
        · split at h
          · simp only [Option.some.injEq, Prod.mk.injEq] at h
            obtain ⟨hr, hst⟩ := h
            subst hst
            simp [addReport, initState] at htf
          · have hs := provisionAndCommit_spec w fuel current .configuredOkay
              (initState w) r st
              (by simp [initState]) (by simp [initState]) (by simp [initState])
              (by simp [initState]) (by simp [initState]) h
            exact hs.2.2.2.2.2 hq
  · intro resps b fuel h0 hpb
    unfold query_skupper_token
    rw [h0]
    simp [hpb]

/-- Witness for C10: over `wEmptyTok` the token fetch returns the empty
string and the run fails with the playbook never invoked and the cache
untouched. -/
theorem C10_empty_token_fails_run_witness :
    PResult.ret false = PResult.ret false
    ∧ wEmptyTokFinal.playbookInvoked = false
    ∧ wEmptyTokFinal.cacheFile = wEmptyTok.cacheFile :=
  C10_empty_token_fails_run.1 wEmptyTok 1 (.ret false) wEmptyTokFinal
    (by decide) (by decide) (by decide)

end RobotConfigService
